import Mathlib

/-!
Shallow embedding of the Cambridge assessed-value prediction service
(src/app.py): the reload → preprocess → train pipeline and the predict
endpoint.

Modelling conventions:
* pandas floats are rationals (ℚ); a missing cell (NaN) is `Option.none`;
* a dataframe is a list of (index label, row) pairs — the pandas index
  labels matter because `dropna` keeps the surviving labels unchanged
  while `pd.DataFrame(...)` built from a numpy array gets a fresh
  0,1,2,… index, and `pd.concat(..., axis=1)` aligns on labels;
* HTTP responses are a sum type: `ok` is a 200 body, `badRequest` a 400
  body, `serverError` a 500 body.
-/

set_option maxRecDepth 16384

namespace AssessApp

/-- A raw dataframe row restricted to the five columns the service keeps
(`src/app.py` line 93 restricts the fetched CSV to exactly these).
A missing cell (NaN in pandas) is `none`. -/
structure RawRow where
  assessedvalue : Option ℚ
  interior_bedrooms : Option ℚ
  interior_fullbaths : Option ℚ
  interior_halfbaths : Option ℚ
  condition_overallcondition : Option String
deriving DecidableEq

/-- A pandas dataframe over the five columns: rows tagged with their index
labels (`read_csv` yields labels 0,1,2,…; `dropna` keeps labels). -/
abbrev RawFrame := List (Nat × RawRow)

/-- Row survives `dropna(subset=[the five required columns])`: no missing
value in any of the five columns. -/
def requiredPresent (r : RawRow) : Bool :=
  r.assessedvalue.isSome && r.interior_bedrooms.isSome &&
  r.interior_fullbaths.isSome && r.interior_halfbaths.isSome &&
  r.condition_overallcondition.isSome

/-- Lexicographic code-point comparison of strings, as numpy uses when
sorting the categories of a fitted `OneHotEncoder`. -/
def listCharLe : List Char → List Char → Bool
  | [], _ => true
  | _ :: _, [] => false
  | a :: as, b :: bs =>
    if a.toNat < b.toNat then true
    else if b.toNat < a.toNat then false
    else listCharLe as bs

def strLeB (a b : String) : Bool := listCharLe a.toList b.toList

def insertStr (x : String) : List String → List String
  | [] => [x]
  | y :: ys => if strLeB x y then x :: y :: ys else y :: insertStr x ys

def sortStrings (l : List String) : List String := l.foldr insertStr []

def insertNat (x : Nat) : List Nat → List Nat
  | [] => [x]
  | y :: ys => if x ≤ y then x :: y :: ys else y :: insertNat x ys

def sortNats (l : List Nat) : List Nat := l.foldr insertNat []

def insertQ (x : ℚ) : List ℚ → List ℚ
  | [] => [x]
  | y :: ys => if x ≤ y then x :: y :: ys else y :: insertQ x ys

def sortQ (l : List ℚ) : List ℚ := l.foldr insertQ []

/-- pandas `Series.median()` over the non-missing values: middle element of
the sorted values, or the mean of the two middle elements; NaN (none) on an
empty series. -/
def medianQ (l : List ℚ) : Option ℚ :=
  let s := sortQ l
  let n := s.length
  if n = 0 then none
  else if n % 2 = 1 then some (s.getD (n / 2) 0)
  else some ((s.getD (n / 2 - 1) 0 + s.getD (n / 2) 0) / 2)

def countOcc (c : String) (l : List String) : ℕ := (l.filter (fun x => x = c)).length

/-- pandas `Series.mode()[0]` over the non-missing values: a most frequent
value, smallest in sort order on ties (`mode()` returns the candidates
sorted). Taking `[0]` of an empty mode raises IndexError, modelled `none`. -/
def modeStr (l : List String) : Option String :=
  (sortStrings l.dedup).foldl
    (fun best c =>
      match best with
      | none => some c
      | some b => if countOcc b l < countOcc c l then some c else some b)
    none

/-- `fillna`: replace a missing cell by the given default (which may itself
be missing, in which case NaN stays NaN). -/
def fillCell (v : Option ℚ) : Option ℚ → Option ℚ
  | some q => some q
  | none => v

/-- The fitted `OneHotEncoder`: its learned category vocabulary, in the
sorted order sklearn stores (`categories_`). -/
structure OneHotEnc where
  cats : List String
deriving DecidableEq

/-- The dense indicator vector of a category against a vocabulary: one 1.0
at the category's position, 0.0 elsewhere. -/
def encodeOne (cats : List String) (c : String) : List ℚ :=
  cats.map (fun k => if k = c then (1 : ℚ) else 0)

/-- `OneHotEncoder.transform` on a single value with the default
`handle_unknown="error"`: raises (modelled `none`) on a category outside the
learned vocabulary. -/
def OneHotEnc.transform (e : OneHotEnc) (c : String) : Option (List ℚ) :=
  if c ∈ e.cats then some (encodeOne e.cats c) else none

/-- A row of the preprocessed feature frame: the target column, the three
numeric features, and the indicator columns that replaced the condition. -/
structure FeatRow where
  assessedvalue : ℚ
  interior_bedrooms : ℚ
  interior_fullbaths : ℚ
  interior_halfbaths : ℚ
  cond_enc : List ℚ
deriving DecidableEq

abbrev FeatFrame := List (Nat × FeatRow)

/-- `preprocess_data` (src/app.py lines 38–65), step by step:
1. `astype(float)` on assessedvalue — identity in this model (cells are
   already rationals or NaN);
2. `dropna` on the five required columns — filter, index labels kept;
3. `fillna(median)` on the three numerics (defensive; no-op after step 2);
4. `fillna(mode()[0])` on the condition — `mode()[0]` raises IndexError on
   an empty frame, so the whole call fails (`none`) there;
5. fit a dense `OneHotEncoder` on the condition column;
6. `pd.concat([df, encoded_df], axis=1).drop(columns=[condition])` — the
   encoded frame carries a fresh 0..k-1 index while `df` kept its original
   labels, and concat outer-joins on the labels (sorted union), leaving NaN
   cells wherever a label is present on only one side;
7. final `df.dropna()` — drops every row with any NaN cell left.
Returns the feature frame and the fitted encoder, or `none` when the call
raises. -/
def preprocess_data (df : RawFrame) : Option (FeatFrame × OneHotEnc) :=
  let kept := df.filter (fun p => requiredPresent p.2)
  let mb := medianQ (kept.filterMap (fun p => p.2.interior_bedrooms))
  let mf := medianQ (kept.filterMap (fun p => p.2.interior_fullbaths))
  let mh := medianQ (kept.filterMap (fun p => p.2.interior_halfbaths))
  let kept1 := kept.map (fun p => (p.1,
    { p.2 with
      interior_bedrooms := fillCell mb p.2.interior_bedrooms
      interior_fullbaths := fillCell mf p.2.interior_fullbaths
      interior_halfbaths := fillCell mh p.2.interior_halfbaths }))
  match modeStr (kept1.filterMap (fun p => p.2.condition_overallcondition)) with
  | none => none
  | some m0 =>
    let kept2 := kept1.map (fun p => (p.1,
      { p.2 with
        condition_overallcondition :=
          match p.2.condition_overallcondition with
          | some c => some c
          | none => some m0 }))
    let conds := kept2.filterMap (fun p => p.2.condition_overallcondition)
    let enc : OneHotEnc := ⟨sortStrings conds.dedup⟩
    let encFrame : List (Nat × List ℚ) :=
      (List.range conds.length).zip (conds.map (encodeOne enc.cats))
    let labels := sortNats ((kept2.map Prod.fst ++ encFrame.map Prod.fst).dedup)
    let outRows : FeatFrame := labels.filterMap (fun l =>
      match List.lookup l kept2, List.lookup l encFrame with
      | some r, some v =>
        match r.assessedvalue, r.interior_bedrooms, r.interior_fullbaths,
              r.interior_halfbaths with
        | some a, some b, some f, some h => some (l, ⟨a, b, f, h, v⟩)
        | _, _, _, _ => none
      | _, _ => none)
    some (outRows, enc)

/-- Mean of a list of rationals; the 0 branch is unreachable on the
success path of `reload_data` (the summary is only built after training
succeeded, which needs a non-empty frame). -/
def meanQ (l : List ℚ) : ℚ :=
  if l.length = 0 then 0 else l.sum / (l.length : ℚ)

def minQl (l : List ℚ) : ℚ :=
  match l with
  | [] => 0
  | x :: xs => xs.foldl min x

def maxQl (l : List ℚ) : ℚ :=
  match l with
  | [] => 0
  | x :: xs => xs.foldl max x

/-- The fitted linear model: one coefficient per feature column plus an
intercept, as sklearn `LinearRegression` stores. -/
structure LinReg where
  coef : List ℚ
  intercept : ℚ
deriving DecidableEq

/-- Modelled library call (sklearn `LinearRegression().fit(X, y)`): the
numeric least-squares solve is abstracted as a deterministic function of
the training data producing one coefficient per feature column. No
verified claim inspects the coefficient values — only the fitted width,
determinism, and the fact that fitting an empty (or ragged) matrix
raises, modelled `none`. -/
def LinReg.fit (X : List (List ℚ)) (y : List ℚ) : Option LinReg :=
  match X with
  | [] => none
  | x0 :: _ =>
    if X.all (fun r => r.length = x0.length) then
      some ⟨x0.map (fun _ => 0), meanQ y⟩
    else none

def dotQ : List ℚ → List ℚ → ℚ
  | a :: as, b :: bs => a * b + dotQ as bs
  | _, _ => 0

/-- sklearn `model.predict` on one feature vector: raises (modelled
`none`) when the vector width differs from the trained width. -/
def LinReg.predictOne (m : LinReg) (xs : List ℚ) : Option ℚ :=
  if xs.length = m.coef.length then some (dotQ m.coef xs + m.intercept) else none

/-- The global `model` variable: `None` before any reload (`Option.none`
outside), a freshly constructed `LinearRegression()` that was never
(successfully) fitted, or a fitted model. Calling `predict` on an
unfitted model raises NotFittedError. -/
inductive PyModel where
  | unfitted
  | fitted (m : LinReg)
deriving DecidableEq

/-- Python `int(...)` on a float: truncation toward zero (used when rows
are inserted into the Assessment table). -/
def pyInt (q : ℚ) : ℤ :=
  if 0 ≤ q then ((q.num.toNat / q.den : ℕ) : ℤ)
  else -(((-q).num.toNat / (-q).den : ℕ) : ℤ)

/-- A persisted `Assessment` row (the SQLAlchemy model): bedrooms and
half baths are integer columns, so the inserted values pass through
`int(...)`. -/
structure AssessRow where
  assessedvalue : ℚ
  interior_bedrooms : ℤ
  interior_fullbaths : ℚ
  interior_halfbaths : ℤ
  condition_overallcondition : String
deriving DecidableEq

/-- Conversion of a kept raw row into a table row (lines 96–104). On the
reload path every inserted row already passed the five-column dropna, so
all cells are present; a row with a missing cell would make `int(...)`
raise, modelled by skipping (filterMap), which is unreachable there. -/
def toAssessRow (r : RawRow) : Option AssessRow :=
  match r.assessedvalue, r.interior_bedrooms, r.interior_fullbaths,
        r.interior_halfbaths, r.condition_overallcondition with
  | some a, some b, some f, some h, some c =>
    some ⟨a, pyInt b, f, pyInt h, c⟩
  | _, _, _, _, _ => none

/-- The process-wide shared state: the two module-level globals and the
Dataset Store table. -/
structure SharedState where
  model : Option PyModel
  encoder : Option OneHotEnc
  table : List AssessRow
deriving DecidableEq

/-- State at process start: no reload has ever run. -/
def initState : SharedState := ⟨none, none, []⟩

/-- `value_counts()`: distinct values with their occurrence counts, sorted
by count descending (ties kept in first-occurrence order); `head()` then
keeps the top five. -/
def insertByCount (x : String × ℕ) : List (String × ℕ) → List (String × ℕ)
  | [] => [x]
  | y :: ys => if y.2 < x.2 then x :: y :: ys else y :: insertByCount x ys

def topCounts (l : List String) : List (String × ℕ) :=
  let counted := l.dedup.map (fun c => (c, countOcc c l))
  (counted.foldl (fun acc x => insertByCount x acc) []).take 5

/-- The JSON summary object built at lines 115–123 over the kept
(post-dropna, pre-preprocessing) frame. pandas mean/min/max skip missing
cells; on the success path all cells are present. -/
structure Summary where
  total_assessments : ℕ
  average_assessedvalue : ℚ
  min_assessedvalue : ℚ
  max_assessedvalue : ℚ
  average_interior_bedrooms : ℚ
  average_interior_fullbaths : ℚ
  top_condition_overallconditions : List (String × ℕ)
deriving DecidableEq

def summaryOf (assessments : RawFrame) : Summary :=
  let avs := assessments.filterMap (fun p => p.2.assessedvalue)
  { total_assessments := assessments.length
    average_assessedvalue := meanQ avs
    min_assessedvalue := minQl avs
    max_assessedvalue := maxQl avs
    average_interior_bedrooms :=
      meanQ (assessments.filterMap (fun p => p.2.interior_bedrooms))
    average_interior_fullbaths :=
      meanQ (assessments.filterMap (fun p => p.2.interior_fullbaths))
    top_condition_overallconditions :=
      topCounts (assessments.filterMap (fun p => p.2.condition_overallcondition)) }

/-- Outcome of the upstream fetch + CSV parse (lines 83–87): either the
GET or `read_csv` raised, or a parsed frame with labels 0,1,2,…. -/
inductive Fetched where
  | fail
  | ok (df : RawFrame)

/-- What the reload request returns: the 200 summary, or the unhandled
exception the framework turns into a 500. -/
inductive ReloadResp where
  | ok (s : Summary)
  | error
deriving DecidableEq

/-- The feature matrix `X = df.drop(columns="assessedvalue")` in the
column order of the preprocessed frame (three numerics, then the
indicator columns appended by the concat). -/
def featX (df : FeatFrame) : List (List ℚ) :=
  df.map (fun p =>
    [p.2.interior_bedrooms, p.2.interior_fullbaths, p.2.interior_halfbaths] ++
      p.2.cond_enc)

def featY (df : FeatFrame) : List ℚ := df.map (fun p => p.2.assessedvalue)

/-- `reload_data` (lines 71–125) as a state transformer. Control flow of
the source, with its exception points:
* fetch / CSV parse raises → nothing was mutated;
* line 93 keeps the rows with all five columns present (labels kept);
* lines 90 and 96–105 clear the table and insert the kept rows, committed
  before training starts;
* `preprocess_data` raises → the tuple assignment at line 108 never runs,
  so `model` and `encoder` keep their previous values (table already
  replaced);
* `model = LinearRegression()` at line 111 runs before `model.fit` at
  line 112, so a fit failure leaves the new encoder paired with the new
  unfitted model;
* on success both globals hold this reload's products and the summary is
  returned. -/
def reload_data (st : SharedState) (f : Fetched) : ReloadResp × SharedState :=
  match f with
  | .fail => (.error, st)
  | .ok raw =>
    let assessments := raw.filter (fun p => requiredPresent p.2)
    let table := assessments.filterMap (fun p => toAssessRow p.2)
    match preprocess_data assessments with
    | none => (.error, { st with table := table })
    | some (df, enc) =>
      match LinReg.fit (featX df) (featY df) with
      | none =>
        (.error, { table := table, model := some PyModel.unfitted,
                   encoder := some enc })
      | some m =>
        (.ok (summaryOf assessments),
         { table := table, model := some (PyModel.fitted m),
           encoder := some enc })

/-- A JSON value in a predict request field (the fields the handler reads
are numbers or strings; an absent field or JSON null is `none` at the
field level, matching `data.get(...)` returning Python None). -/
inductive JVal where
  | num (q : ℚ)
  | str (s : String)
deriving DecidableEq

/-- The predict request body. -/
structure PredictRequest where
  interior_bedrooms : Option JVal
  interior_fullbaths : Option JVal
  interior_halfbaths : Option JVal
  condition_overallcondition : Option String
deriving DecidableEq

def digitVal (c : Char) : Option ℕ :=
  if c.isDigit then some (c.toNat - 48) else none

def parseDigits (cs : List Char) : Option ℕ :=
  if cs.isEmpty then none
  else
    cs.foldl
      (fun acc c =>
        match acc, digitVal c with
        | some n, some d => some (10 * n + d)
        | _, _ => none)
      (some 0)

/-- Decimal numeral parser standing in for pandas' numeric-string parsing
in `pd.to_numeric`: optional sign, integer part, optional fractional
part. Strings it rejects coerce to NaN. -/
def parseUnsigned (cs : List Char) : Option ℚ :=
  match cs.splitOn '.' with
  | [w] => (parseDigits w).map (fun n => (n : ℚ))
  | [w, fr] =>
    match parseDigits w, parseDigits fr with
    | some n, some f => some ((n : ℚ) + (f : ℚ) / ((10 : ℚ) ^ fr.length))
    | _, _ => none
  | _ => none

def parseNum (s : String) : Option ℚ :=
  match s.toList with
  | '-' :: rest => (parseUnsigned rest).map (fun q => -q)
  | '+' :: rest => parseUnsigned rest
  | cs => parseUnsigned cs

/-- `pd.to_numeric(value, errors="coerce")` on a scalar taken from the
JSON body: a number stays itself, a numeric string parses, anything else
— including Python None from an absent field — coerces to NaN (`none`).
Note the result is never Python None: failures are NaN. -/
def toNumericCoerce : Option JVal → Option ℚ
  | none => none
  | some (.num q) => some q
  | some (.str s) => parseNum s

/-- The response of the predict endpoint: 200 with the predicted value,
400 with an error message, or 500 with the exception text. -/
inductive RespStatus where
  | ok (q : ℚ)
  | badRequest (msg : String)
  | serverError (msg : String)
deriving DecidableEq

def valid_condition_overallcondition : List String :=
  ["Average", "Excellent", "Fair", "Good", "Poor", "Superior", "Very Good"]

def notLoadedMsg : String :=
  "The data has not been loaded. Please refresh the data by calling the \x27/reload\x27 endpoint first."

def missingParamsMsg : String := "Missing or invalid required parameters"

def invalidCondMsg : String :=
  "Invalid condition_overallcondition. Please choose one of the following: Average, Excellent, Fair, Good, Poor, Superior, Very Good"

def invalidNumericMsg : String :=
  "Invalid numeric values for interior_bedrooms, interior_fullbaths, or interior_halfbaths"

/-- Stand-in for `str(e)` of the sklearn error raised by
`encoder.transform` on a category outside the learned vocabulary
(`handle_unknown="error"`); the handler returns it with HTTP 500. -/
def unknownCategoryMsg : String := "Found unknown categories during transform"

/-- Stand-in for `str(e)` of NotFittedError from `model.predict` on a
never-fitted `LinearRegression`. -/
def notFittedMsg : String := "This LinearRegression instance is not fitted yet"

/-- Stand-in for `str(e)` of the shape error from `model.predict` on a
feature vector whose width differs from the trained width. -/
def shapeMismatchMsg : String := "input operand shape mismatch"

/-- `predict` (src/app.py lines 126–190) as a state transformer. The
handler body only reads the globals and the request and returns a
response; it assigns no global and writes no table row, so every branch
returns the state unchanged. Checks in source order:
1. `model is None or encoder is None` → 400 not-loaded;
2. `None in [bedrooms, fullbaths, halfbaths, condition]` → 400 missing
   parameters — the three numerics come out of
   `pd.to_numeric(..., errors="coerce")` and are NaN (never Python None)
   on failure, so only an absent condition can trip this check;
3. condition outside the seven accepted literals → 400 invalid condition;
4. `pd.isna` on any of the three numerics (the catch-all match arm) →
   400 invalid numeric values;
5. `encoder.transform` — raises on a category outside the vocabulary,
   caught by the blanket handler → 500;
6. `model.predict` — raises on an unfitted model or a width mismatch,
   caught → 500; otherwise 200 with the prediction. -/
def predict : SharedState → PredictRequest → RespStatus × SharedState
  | ⟨some mdl, some enc, t⟩, req =>
    ((let b := toNumericCoerce req.interior_bedrooms
      let f := toNumericCoerce req.interior_fullbaths
      let h := toNumericCoerce req.interior_halfbaths
      match req.condition_overallcondition with
      | none => .badRequest missingParamsMsg
      | some c =>
        if c ∈ valid_condition_overallcondition then
          match b, f, h with
          | some bq, some fq, some hq =>
            match enc.transform c with
            | none => .serverError unknownCategoryMsg
            | some ev =>
              match mdl with
              | .unfitted => .serverError notFittedMsg
              | .fitted lr =>
                match lr.predictOne ([bq, fq, hq] ++ ev) with
                | none => .serverError shapeMismatchMsg
                | some q => .ok q
          | _, _, _ => .badRequest invalidNumericMsg
        else .badRequest invalidCondMsg),
     ⟨some mdl, some enc, t⟩)
  | st, _ => (.badRequest notLoadedMsg, st)

/-- Substring test: the pattern occurs contiguously in the string. -/
def strHasSub (s pat : String) : Bool :=
  (List.range (s.toList.length + 1)).any
    (fun i => ((s.toList.drop i).take pat.toList.length) == pat.toList)

/-- The shared state after a sequence of reload requests starting at
process start (each request's fetch outcome given by the list entry). -/
def runReloads (fs : List Fetched) : SharedState :=
  fs.foldl (fun st f => (reload_data st f).2) initState

/-- The model and the encoder are the products of one and the same
(successful) reload: some fetched frame produces exactly this pair. -/
def trainedTogether (m : LinReg) (e : OneHotEnc) : Prop :=
  ∃ raw : RawFrame,
    (reload_data initState (Fetched.ok raw)).2.model = some (PyModel.fitted m) ∧
    (reload_data initState (Fetched.ok raw)).2.encoder = some e

/-- Invariant: whenever the shared state holds a fitted model and an
encoder, they come from the same reload. -/
def pairInvariant (st : SharedState) : Prop :=
  ∀ m e, st.model = some (PyModel.fitted m) → st.encoder = some e →
    trainedTogether m e

/-- Concrete fetched frame on which reload fully succeeds: two complete
rows, contiguous labels. -/
def exFrame : RawFrame :=
  [(0, ⟨some 100, some 2, some 1, some 0, some "Good"⟩),
   (1, ⟨some 200, some 3, some 2, some 1, some "Fair"⟩)]

def exModel : LinReg := ⟨[0, 0, 0, 0, 0], 150⟩

def exEncoder : OneHotEnc := ⟨["Fair", "Good"]⟩

def exTable : List AssessRow :=
  [⟨100, 2, 1, 0, "Good"⟩, ⟨200, 3, 2, 1, "Fair"⟩]

def exState : SharedState :=
  ⟨some (PyModel.fitted exModel), some exEncoder, exTable⟩

def exSummary : Summary :=
  ⟨2, 150, 100, 200, 5/2, 3/2, [("Good", 1), ("Fair", 1)]⟩

/-- Concrete raw frame whose first row is dropped by the required-column
dropna: the survivors keep labels 1 and 2 while the one-hot frame gets
labels 0 and 1, so the concat misaligns. -/
def exC1 : RawFrame :=
  [(0, ⟨none, some 2, some 1, some 0, some "Good"⟩),
   (1, ⟨some 100, some 2, some 1, some 0, some "Good"⟩),
   (2, ⟨some 200, some 3, some 2, some 1, some "Fair"⟩)]

theorem exFrame_reload :
    reload_data initState (Fetched.ok exFrame) = (ReloadResp.ok exSummary, exState) := by
  with_unfolding_all decide

/-- Elimination of a successful reload: the preprocessing and the fit both
succeeded, the summary is the one of the kept (post-dropna) frame, and the
new state holds the fitted model and the encoder of this reload. -/
theorem reload_ok_elim {st : SharedState} {raw : RawFrame} {s : Summary}
    {st' : SharedState}
    (h : reload_data st (Fetched.ok raw) = (ReloadResp.ok s, st')) :
    ∃ df enc m,
      preprocess_data (raw.filter (fun p => requiredPresent p.2)) = some (df, enc) ∧
      LinReg.fit (featX df) (featY df) = some m ∧
      s = summaryOf (raw.filter (fun p => requiredPresent p.2)) ∧
      st'.model = some (PyModel.fitted m) ∧
      st'.encoder = some enc := by
  simp only [reload_data] at h
  split at h
  · simp at h
  · split at h
    · simp at h
    · rename_i x1 df enc hp x2 m hf
      rw [Prod.mk.injEq] at h
      obtain ⟨h1, h2⟩ := h
      injection h1 with h1
      refine ⟨df, enc, m, hp, hf, h1.symm, ?_, ?_⟩
      · rw [← h2]
      · rw [← h2]

theorem encodeOne_length (cats : List String) (c : String) :
    (encodeOne cats c).length = cats.length := by
  simp [encodeOne]

/-- A successful fit fixes the coefficient width to the width of every
training row. -/
theorem fit_coef_length {X : List (List ℚ)} {y : List ℚ} {m : LinReg}
    (h : LinReg.fit X y = some m) : ∀ x ∈ X, x.length = m.coef.length := by
  unfold LinReg.fit at h
  split at h
  · exact absurd h (by simp)
  · rename_i x0 rest
    split at h
    · rename_i hall
      injection h with h
      subst h
      simp only [List.all_eq_true, decide_eq_true_eq] at hall
      intro x hx
      simp only [List.length_map]
      exact hall x hx
    · exact absurd h (by simp)

/-- A positive association-list lookup yields a member pair. -/
theorem lookup_mem {α : Type} {l : List (Nat × α)} {k : Nat} {v : α}
    (h : List.lookup k l = some v) : (k, v) ∈ l := by
  induction l with
  | nil => simp [List.lookup] at h
  | cons p rest ih =>
    obtain ⟨a, b⟩ := p
    rw [List.lookup] at h
    split at h
    · rename_i hbeq
      injection h with h
      subst h
      have hk : k = a := by simpa using hbeq
      subst hk
      exact List.mem_cons_self _ _
    · exact List.mem_cons_of_mem _ (ih h)

/-- Every row of the preprocessed frame carries an indicator vector of the
encoder's vocabulary width (the rows that survive the final dropna all got
their indicator cells from the one-hot frame). -/
theorem preprocess_enc_length {d : RawFrame} {df : FeatFrame} {enc : OneHotEnc}
    (h : preprocess_data d = some (df, enc)) :
    ∀ p ∈ df, p.2.cond_enc.length = enc.cats.length := by
  simp only [preprocess_data] at h
  split at h
  · exact absurd h (by simp)
  · rename_i m0 hm0
    rw [Option.some.injEq, Prod.mk.injEq] at h
    obtain ⟨hdf, henc⟩ := h
    subst hdf
    subst henc
    intro p hp
    rw [List.mem_filterMap] at hp
    obtain ⟨l, hl, hgl⟩ := hp
    split at hgl
    · rename_i r v hk he
      split at hgl
      · rename_i a b f hh hfields
        injection hgl with hgl
        subst hgl
        have hmem := lookup_mem he
        have hv := (List.of_mem_zip hmem).2
        rw [List.mem_map] at hv
        obtain ⟨c', hc', hvc⟩ := hv
        subst hvc
        exact encodeOne_length _ _
      · exact absurd hgl (by simp)
    · exact absurd hgl (by simp)

/-- After a successful reload the fitted coefficient width is exactly
three numerics plus one indicator column per learned category. -/
theorem reload_ok_width {st : SharedState} {raw : RawFrame} {s : Summary}
    {st' : SharedState} {m : LinReg} {enc : OneHotEnc}
    (h : reload_data st (Fetched.ok raw) = (ReloadResp.ok s, st'))
    (hm : st'.model = some (PyModel.fitted m))
    (he : st'.encoder = some enc) :
    m.coef.length = 3 + enc.cats.length := by
  obtain ⟨df, enc', m', hp, hf, _, hm', he'⟩ := reload_ok_elim h
  rw [hm'] at hm
  rw [he'] at he
  injection hm with hm
  injection he with he
  injection hm with hm
  subst hm
  subst he
  cases df with
  | nil => simp [featX, LinReg.fit] at hf
  | cons p0 rest =>
    have hx := fit_coef_length hf
      ([p0.2.interior_bedrooms, p0.2.interior_fullbaths, p0.2.interior_halfbaths]
        ++ p0.2.cond_enc)
      (by simp [featX])
    have hlen := preprocess_enc_length hp p0 (List.mem_cons_self _ _)
    simp only [List.length_append, List.length_cons, List.length_nil] at hx
    omega

/-- C1 (code bug): the spec's preprocessing contract says the condition
column is replaced by its indicator columns with row alignment preserved
and that the final defensive dropna removes nothing once step 2 dropped the
incomplete rows. On `exC1` — whose row 0 is dropped by the required-column
dropna — the survivors are the rows labelled 1 and 2, yet `preprocess_data`
returns a single row: the row labelled 1 keeps its own numeric features but
receives `[1, 0]`, the indicator vector of "Fair" (row 2's condition, and
row 1's condition "Good" encodes as `[0, 1]`), and surviving row 2 is
silently dropped by the final dropna. The pandas label alignment of
`pd.concat(axis=1)` (fresh 0..k-1 labels on the one-hot frame vs kept
original labels on the data frame) is the cause. -/
theorem c1_preprocess_misaligns_on_dropped_row :
    preprocess_data exC1 =
      some ([(1, ⟨100, 2, 1, 0, [1, 0]⟩)], ⟨["Fair", "Good"]⟩) ∧
    (exC1.filter (fun p => requiredPresent p.2)).map Prod.fst = [1, 2] ∧
    OneHotEnc.transform ⟨["Fair", "Good"]⟩ "Good" = some [0, 1] ∧
    OneHotEnc.transform ⟨["Fair", "Good"]⟩ "Fair" = some [1, 0] := by
  with_unfolding_all decide

/-- C6: after a successful reload the returned `total_assessments` equals
the number of rows of the fetched frame, restricted to the five required
columns, that have no missing value in any of them — counted before any
imputation or encoding. -/
theorem c6_total_assessments_counts_complete_rows
    {st st' : SharedState} {raw : RawFrame} {s : Summary}
    (hre : reload_data st (Fetched.ok raw) = (ReloadResp.ok s, st')) :
    s.total_assessments = (raw.filter (fun p => requiredPresent p.2)).length := by
  obtain ⟨df, enc, m, hp, hf, hs, _, _⟩ := reload_ok_elim hre
  rw [hs]
  rfl

theorem c6_witness :
    exSummary.total_assessments =
      (exFrame.filter (fun p => requiredPresent p.2)).length :=
  c6_total_assessments_counts_complete_rows exFrame_reload

def reqOk : PredictRequest :=
  ⟨some (JVal.num 2), some (JVal.num 1), some (JVal.num 1), some "Good"⟩

/-- C7: before any reload has succeeded (the shared model or encoder slot
is still empty) every predict request gets the 400 not-loaded error, no
matter what the body holds — no validation or prediction is attempted. -/
theorem c7_predict_before_any_reload {st : SharedState} (req : PredictRequest)
    (h : st.model = none ∨ st.encoder = none) :
    (predict st req).1 = RespStatus.badRequest notLoadedMsg := by
  obtain ⟨om, oe, t⟩ := st
  cases om <;> cases oe <;>
    first
      | rfl
      | (rcases h with h | h <;> simp at h)

theorem c7_witness :
    (predict initState reqOk).1 = RespStatus.badRequest notLoadedMsg :=
  c7_predict_before_any_reload reqOk (Or.inl rfl)

/-- C9: predict is deterministic and reads no shared state besides the
model and the encoder: two states agreeing on those two slots (whatever
the Dataset Store table holds) give the same response to the same
request; in particular repeating a request against a fixed state repeats
the value. -/
theorem c9_predict_deterministic {st st' : SharedState} (req : PredictRequest)
    (hm : st.model = st'.model) (he : st.encoder = st'.encoder) :
    (predict st req).1 = (predict st' req).1 := by
  obtain ⟨om, oe, t⟩ := st
  obtain ⟨om', oe', t'⟩ := st'
  have hm2 : om = om' := hm
  have he2 : oe = oe' := he
  subst hm2
  subst he2
  cases om <;> cases oe <;> rfl

def exStateOtherTable : SharedState :=
  ⟨some (PyModel.fitted exModel), some exEncoder, []⟩

theorem c9_witness :
    (predict exState reqOk).1 = (predict exStateOtherTable reqOk).1 :=
  c9_predict_deterministic reqOk rfl rfl

/-- C10: predict never writes: whatever the outcome (200, 400 or 500),
the shared model, the fitted encoder and the Dataset Store table are
unchanged — every branch of the handler returns the state it was given. -/
theorem c10_predict_leaves_state_unchanged (st : SharedState)
    (req : PredictRequest) :
    (predict st req).2 = st := by
  obtain ⟨om, oe, t⟩ := st
  cases om <;> cases oe <;> rfl

def reqNoBedrooms : PredictRequest :=
  ⟨none, some (JVal.num 1), some (JVal.num 1), some "Good"⟩

def reqNoCond : PredictRequest :=
  ⟨some (JVal.num 2), some (JVal.num 1), some (JVal.num 1), none⟩

def reqNoHalf : PredictRequest :=
  ⟨some (JVal.num 2), some (JVal.num 1), none, some "Good"⟩

def reqLowercase : PredictRequest :=
  ⟨some (JVal.num 2), some (JVal.num 1), some (JVal.num 1), some "good"⟩

/-- C4 (counterexample): the claim says an absent numeric field yields the
400 "Missing or invalid required parameters" error. On a loaded state,
a request with no `interior_bedrooms` and a valid condition instead gets
the 400 "Invalid numeric values …" message — `pd.to_numeric(None,
errors="coerce")` gives NaN, not Python None, so the missing-parameters
check does not fire. -/
theorem c4_counterexample :
    (predict exState reqNoBedrooms).1 = RespStatus.badRequest invalidNumericMsg ∧
    invalidNumericMsg ≠ missingParamsMsg := by
  with_unfolding_all decide

/-- C4 (amended): on a loaded state the "Missing or invalid required
parameters" error is returned exactly when the condition field is absent;
a condition outside the seven accepted literals is reported as the
invalid-condition error even when numeric fields are absent or
non-numeric (the condition check precedes the NaN check); and an absent
or non-coercible numeric field with a valid condition yields the
"Invalid numeric values …" error. -/
theorem c4_validation_message_order {st : SharedState} {req : PredictRequest}
    {mdl : PyModel} {enc : OneHotEnc}
    (hm : st.model = some mdl) (he : st.encoder = some enc) :
    (req.condition_overallcondition = none →
      (predict st req).1 = RespStatus.badRequest missingParamsMsg) ∧
    (∀ c, req.condition_overallcondition = some c →
      c ∉ valid_condition_overallcondition →
      (predict st req).1 = RespStatus.badRequest invalidCondMsg) ∧
    (∀ c, req.condition_overallcondition = some c →
      c ∈ valid_condition_overallcondition →
      (toNumericCoerce req.interior_bedrooms = none ∨
       toNumericCoerce req.interior_fullbaths = none ∨
       toNumericCoerce req.interior_halfbaths = none) →
      (predict st req).1 = RespStatus.badRequest invalidNumericMsg) := by
  obtain ⟨om, oe, t⟩ := st
  have hm2 : om = some mdl := hm
  have he2 : oe = some enc := he
  subst hm2
  subst he2
  refine ⟨?_, ?_, ?_⟩
  · intro h0
    simp [predict, h0]
  · intro c hcond hbad
    simp [predict, hcond, hbad]
  · intro c hcond hok hnone
    rcases hnone with h1 | h1 | h1
    · rcases hf2 : toNumericCoerce req.interior_fullbaths with _ | fq <;>
        rcases hh2 : toNumericCoerce req.interior_halfbaths with _ | hq <;>
        simp [predict, hcond, hok, h1, hf2, hh2]
    · rcases hb : toNumericCoerce req.interior_bedrooms with _ | bq <;>
        rcases hh2 : toNumericCoerce req.interior_halfbaths with _ | hq <;>
        simp [predict, hcond, hok, hb, h1, hh2]
    · rcases hb : toNumericCoerce req.interior_bedrooms with _ | bq <;>
        rcases hf2 : toNumericCoerce req.interior_fullbaths with _ | fq <;>
        simp [predict, hcond, hok, hb, hf2, h1]

theorem c4_witness :
    (predict exState reqNoCond).1 = RespStatus.badRequest missingParamsMsg :=
  (@c4_validation_message_order exState reqNoCond
    (PyModel.fitted exModel) exEncoder rfl rfl).1 rfl

/-- C5: after a successful reload (any loaded state), a request whose
`interior_halfbaths` field is absent while the condition is one of the
seven accepted literals gets a 400 whose message contains the substring
"Invalid numeric values". -/
theorem c5_missing_numeric_field_message {st : SharedState}
    {req : PredictRequest} {mdl : PyModel} {enc : OneHotEnc} {c : String}
    (hm : st.model = some mdl) (he : st.encoder = some enc)
    (hh : req.interior_halfbaths = none)
    (hc : req.condition_overallcondition = some c)
    (h7 : c ∈ valid_condition_overallcondition) :
    (predict st req).1 = RespStatus.badRequest invalidNumericMsg ∧
    strHasSub invalidNumericMsg "Invalid numeric values" = true := by
  constructor
  · obtain ⟨om, oe, t⟩ := st
    have hm2 : om = some mdl := hm
    have he2 : oe = some enc := he
    subst hm2
    subst he2
    rcases hb : toNumericCoerce req.interior_bedrooms with _ | bq <;>
      rcases hf2 : toNumericCoerce req.interior_fullbaths with _ | fq <;>
      simp [predict, hc, h7, hb, hf2, hh, toNumericCoerce]
  · decide

theorem c5_witness :
    (predict exState reqNoHalf).1 = RespStatus.badRequest invalidNumericMsg ∧
    strHasSub invalidNumericMsg "Invalid numeric values" = true :=
  @c5_missing_numeric_field_message exState reqNoHalf
    (PyModel.fitted exModel) exEncoder "Good"
    rfl rfl rfl rfl (by decide)

/-- C8: the condition check is a case-sensitive exact match against the
seven literals: on a loaded state, any request whose condition value is
present but not exactly one of them (for instance lowercase "good") gets
a 400 whose message contains "Invalid condition_overallcondition" — no
case normalization happens. -/
theorem c8_condition_match_case_sensitive {st : SharedState}
    {req : PredictRequest} {mdl : PyModel} {enc : OneHotEnc} {c : String}
    (hm : st.model = some mdl) (he : st.encoder = some enc)
    (hc : req.condition_overallcondition = some c)
    (h7 : c ∉ valid_condition_overallcondition) :
    (predict st req).1 = RespStatus.badRequest invalidCondMsg ∧
    strHasSub invalidCondMsg "Invalid condition_overallcondition" = true := by
  constructor
  · obtain ⟨om, oe, t⟩ := st
    have hm2 : om = some mdl := hm
    have he2 : oe = some enc := he
    subst hm2
    subst he2
    simp [predict, hc, h7]
  · decide

theorem c8_witness :
    (predict exState reqLowercase).1 = RespStatus.badRequest invalidCondMsg ∧
    strHasSub invalidCondMsg "Invalid condition_overallcondition" = true :=
  @c8_condition_match_case_sensitive exState reqLowercase
    (PyModel.fitted exModel) exEncoder "good"
    rfl rfl rfl (by decide)

/-- One reload request preserves the pairing invariant: a failed fetch
changes nothing, a preprocessing failure leaves both globals untouched, a
fit failure leaves a new unfitted model (so no fitted pair at all), and a
success installs the pair produced by this reload. -/
theorem pairInvariant_step (st : SharedState) (f : Fetched)
    (ih : pairInvariant st) : pairInvariant (reload_data st f).2 := by
  cases f with
  | fail => exact ih
  | ok raw =>
    intro m e hm he
    rcases hp : preprocess_data (raw.filter (fun p => requiredPresent p.2)) with _ | ⟨df, enc⟩
    · have hmm : (reload_data st (Fetched.ok raw)).2.model = st.model := by
        simp [reload_data, hp]
      have hee : (reload_data st (Fetched.ok raw)).2.encoder = st.encoder := by
        simp [reload_data, hp]
      rw [hmm] at hm
      rw [hee] at he
      exact ih m e hm he
    · rcases hf : LinReg.fit (featX df) (featY df) with _ | m'
      · have hmm : (reload_data st (Fetched.ok raw)).2.model = some PyModel.unfitted := by
          simp [reload_data, hp, hf]
        rw [hmm] at hm
        injection hm with hm
        exact absurd hm (by simp)
      · have hmm : (reload_data st (Fetched.ok raw)).2.model
            = some (PyModel.fitted m') := by
          simp [reload_data, hp, hf]
        have hee : (reload_data st (Fetched.ok raw)).2.encoder = some enc := by
          simp [reload_data, hp, hf]
        rw [hmm] at hm
        rw [hee] at he
        injection hm with hm
        injection he with he
        injection hm with hm
        subst hm
        subst he
        exact ⟨raw, by simp [reload_data, hp, hf], by simp [reload_data, hp, hf]⟩

/-- C2: under the request-at-a-time execution model of the source, after
any sequence of reload requests (each fetch succeeding or failing, each
reload completing or raising at preprocessing or at fitting), whenever the
shared state holds a fitted model together with an encoder, both are the
products of one and the same reload — a predict call never applies a
fitted model to features encoded by an encoder it was not trained with.
(A reload that raises at `model.fit` leaves a fresh unfitted model, whose
`predict` raises NotFittedError → 500, never a prediction.) -/
theorem c2_reload_replaces_pair_atomically (fs : List Fetched)
    (m : LinReg) (e : OneHotEnc)
    (hm : (runReloads fs).model = some (PyModel.fitted m))
    (he : (runReloads fs).encoder = some e) :
    trainedTogether m e := by
  have main : ∀ (l : List Fetched) (st : SharedState), pairInvariant st →
      pairInvariant (l.foldl (fun s f => (reload_data s f).2) st) := by
    intro l
    induction l with
    | nil => intro st h; exact h
    | cons f rest ih =>
      intro st h
      exact ih _ (pairInvariant_step st f h)
  have h0 : pairInvariant initState := by
    intro m' e' hm' _
    simp [initState] at hm'
  exact main fs initState h0 m e hm he

theorem c2_witness : trainedTogether exModel exEncoder :=
  c2_reload_replaces_pair_atomically [Fetched.ok exFrame] exModel exEncoder
    (by with_unfolding_all decide) (by with_unfolding_all decide)

/-- C3: after any successful reload, a predict request whose condition is
one of the seven accepted literals and whose three numeric fields coerce
to numbers gets a 200 carrying a predicted value (a rational in this
model, hence finite) whenever the condition belongs to the vocabulary the
encoder learned at that reload; a literal absent from that vocabulary
does not produce a 200 — the encoder's transform raises and the blanket
handler turns it into the generic 500 internal error, not a crash. -/
theorem c3_predict_valid_input_after_reload
    {st st' : SharedState} {raw : RawFrame} {s : Summary} {req : PredictRequest}
    {c : String} {enc : OneHotEnc}
    (hre : reload_data st (Fetched.ok raw) = (ReloadResp.ok s, st'))
    (he : st'.encoder = some enc)
    (hc : req.condition_overallcondition = some c)
    (h7 : c ∈ valid_condition_overallcondition)
    (hb : (toNumericCoerce req.interior_bedrooms).isSome = true)
    (hf : (toNumericCoerce req.interior_fullbaths).isSome = true)
    (hh : (toNumericCoerce req.interior_halfbaths).isSome = true) :
    (c ∈ enc.cats → ∃ q, (predict st' req).1 = RespStatus.ok q) ∧
    (c ∉ enc.cats → (predict st' req).1 = RespStatus.serverError unknownCategoryMsg) := by
  obtain ⟨df, enc', m, hp, hfit, _, hm', he'⟩ := reload_ok_elim hre
  have hw : m.coef.length = 3 + enc'.cats.length := reload_ok_width hre hm' he'
  rw [he'] at he
  injection he with he
  subst he
  obtain ⟨om, oe, tb⟩ := st'
  have hm2 : om = some (PyModel.fitted m) := hm'
  have he2 : oe = some enc' := he'
  subst hm2
  subst he2
  obtain ⟨bq, hbq⟩ := Option.isSome_iff_exists.mp hb
  obtain ⟨fq, hfq⟩ := Option.isSome_iff_exists.mp hf
  obtain ⟨hq2, hhq⟩ := Option.isSome_iff_exists.mp hh
  constructor
  · intro hmem
    refine ⟨dotQ m.coef ([bq, fq, hq2] ++ encodeOne enc'.cats c) + m.intercept, ?_⟩
    have ht : enc'.cats.length + 1 + 1 + 1 = 3 + enc'.cats.length := by omega
    simp [predict, hc, hbq, hfq, hhq, h7, OneHotEnc.transform, hmem,
      LinReg.predictOne, encodeOne, hw, ht]
  · intro hmem
    simp [predict, hc, hbq, hfq, hhq, h7, OneHotEnc.transform, hmem]

theorem c3_witness :
    ∃ q, (predict exState reqOk).1 = RespStatus.ok q :=
  (@c3_predict_valid_input_after_reload initState exState exFrame exSummary
      reqOk "Good" exEncoder
      exFrame_reload rfl rfl (by decide) rfl rfl rfl).1 (by decide)

end AssessApp
